import Mathlib

/-!
# Verification of the jobapplier dispatch pipeline

A shallow embedding, in Lean 4, of the decision logic of the jobapplier
repository: the per-identity eligibility evaluation
(`EmailSender._should_send_email`), the blocked-position check
(`AccountDataService.is_position_blocked`), the subject transform
(`EmailHelper.clean_subject` / `EmailSender._prepare_subject`), the validation
helper (`EmailHelper._validate_and_extract`), the sent-log store
(`SentLogService`), the batch coordinator
(`BatchEmailProcessor.process_job_application`), the payload gate
(`AutoEmailer._handle_payload`) and the shutdown sequence
(`AutoEmailer.stop`).

Python strings are modelled as Lean `String` / `List Char` (ASCII behaviour of
`str.lower`, `str.strip`, `str.split`); Python sets as de-duplicated lists;
Python dicts as association lists; database state as explicit lists of rows;
exceptions as `Except`; external oracles (database queries, the SMTP
transport, the filesystem) as explicit function parameters.  Fallible steps
return `Except`, with the raising-and-catching structure of the source kept
explicit.  Recursive scans that consume more than one element per step carry a
fuel argument bounded below by the input length, which keeps them structurally
recursive and kernel-computable; the fuel never runs out on the inputs used.
-/

/-! ## Character and string utilities (ASCII models of Python `str` methods) -/

/-- `\w` of Python `re` (ASCII fragment): letters, digits, underscore. -/
def isWordChar (c : Char) : Bool := c.isAlphanum || c == '_'

/-- ASCII model of Python `str.lower` applied characterwise. -/
def strLower (s : String) : String := String.mk (s.toList.map Char.toLower)

/-- Boolean prefix test on character lists. -/
def isPrefixOfB : List Char → List Char → Bool
  | [], _ => true
  | _ :: _, [] => false
  | a :: as, b :: bs => a == b && isPrefixOfB as bs

/-- Model of the Python substring test `needle in hay`
(the empty needle is contained in everything, as in Python). -/
def containsSublist (needle : List Char) : List Char → Bool
  | [] => needle.isEmpty
  | c :: rest => isPrefixOfB needle (c :: rest) || containsSublist needle rest

/-- Model of Python `str.split()` (no argument): split on runs of whitespace,
dropping empty pieces.  `acc` is the current word, reversed. -/
def splitWSAux (acc : List Char) : List Char → List (List Char)
  | [] => if acc.isEmpty then [] else [acc.reverse]
  | c :: rest =>
    if c.isWhitespace then
      if acc.isEmpty then splitWSAux [] rest
      else acc.reverse :: splitWSAux [] rest
    else splitWSAux (c :: acc) rest

def splitWS (l : List Char) : List (List Char) := splitWSAux [] l

/-- Model of `" ".join(position.lower().split())` from
`AccountDataService.is_position_blocked` (src/services/database/email_services.py):
lower-case, then collapse internal whitespace to single spaces. -/
def normalizePosition (position : String) : List Char :=
  List.intercalate [' '] (splitWS (position.toList.map Char.toLower))

/-! ## Constants (src/config/const.py) -/

/-- `FEMALE_KEYWORDS` from src/config/const.py (a Python set, modelled as a list). -/
def FEMALE_KEYWORDS : List String := ["female", "perempuan", "wanita"]

/-- `MALE_KEYWORDS` from src/config/const.py. -/
def MALE_KEYWORDS : List String := ["male", "men", "laki-laki", "pria"]

/-! ## Data model (src/models/email_schemas.py) -/

/-- `EmailAccountSchema`. -/
structure EmailAccountSchema where
  id : Nat
  email : String
  app_password : String
  is_active : Bool
deriving DecidableEq, Repr

/-- `EmailAccountProfile`. -/
structure EmailAccountProfile where
  account_id : Nat
  name : String
  username : String
  gender : String
  phone : String
deriving DecidableEq, Repr

/-- A compiled regular-expression pattern of the Python `re` module, abstracted:
either a valid pattern with its (opaque-to-us) match predicate over the
searched string, or a malformed pattern, on which `re.search` raises
`re.error`. -/
inductive RePattern where
  | valid (hit : List Char → Bool)
  | invalid

/-- `EmailAccountData.blocked_job_position`: keys `"keywords"` and
`"regex_patterns"` of the JSON config dict (absent keys default to `[]`
via `.get(..., [])` in the source). -/
structure EmailAccountData where
  account_id : Nat
  keywords : List String
  regex_patterns : List RePattern

/-- `CompleteAccountInfo`. -/
structure CompleteAccountInfo where
  account : EmailAccountSchema
  profile : EmailAccountProfile
  data : EmailAccountData

/-! ## Stats counters (src/services/email_stats.py) -/

/-- `EmailLogStats` (the counter fields; `last_reset` is wall-clock only and
not consulted by any decision). -/
structure EmailLogStats where
  processed : Nat := 0
  emails_sent : Nat := 0
  failed : Nat := 0
  unmatch_gender : Nat := 0
  unrelevan_position : Nat := 0
  duplicate : Nat := 0
deriving DecidableEq, Repr

/-! ## Blocked-position gate (src/services/database/email_services.py,
`AccountDataService.is_position_blocked`) -/

/-- Evaluate one pattern of the config list the way the source's
`re.search(pattern, position_lower)` inside `try/except re.error: continue`
does: a valid pattern reports its match result, a malformed pattern is
skipped (contributes `false`) instead of raising. -/
def rePatternHits (position_lower : List Char) : RePattern → Bool
  | .valid f => f position_lower
  | .invalid => false

/-- `AccountDataService.is_position_blocked`: normalize the position
(lower-case, collapse whitespace), then report a block if any configured
keyword is a substring or any configured valid regex matches. -/
def is_position_blocked (account_data : EmailAccountData) (position : String) : Bool :=
  let position_lower := normalizePosition position
  account_data.keywords.any
      (fun keyword => containsSublist (keyword.toList.map Char.toLower) position_lower)
    || account_data.regex_patterns.any (rePatternHits position_lower)

/-! ## Duplicate scan and eligibility evaluation (src/services/emailer.py,
`EmailSender._should_send_email`) -/

/-- Outcome of the `for target_email in target_emails` duplicate loop:
all checks returned `False`; some check returned `True`; or a check raised
(the `except Exception` at the end of `_should_send_email`). -/
inductive DupScan where
  | allClear
  | dupFound (target : String)
  | dbError
deriving DecidableEq, Repr

/-- The duplicate loop, iterating targets in order against the
`SentLogService.check_already_sent` oracle (`Except Unit Bool`:
`.error` models the query raising). -/
def scanDuplicates (check : String → String → Except Unit Bool) (sender : String) :
    List String → DupScan
  | [] => .allClear
  | t :: ts =>
    match check t sender with
    | .error _ => .dbError
    | .ok true => .dupFound t
    | .ok false => scanDuplicates check sender ts

/-- Python truthiness of the optional `job_gender` string
(`if job_gender:`): `None` and `""` are falsy. -/
def truthyStr : Option String → Bool
  | none => false
  | some s => !(s == "")

/-- The tail of `_should_send_email` after the gender gate: blocked-position
check, then the duplicate loop with its fail-closed `except` branch. -/
def shouldSendAfterGender (check : String → String → Except Unit Bool)
    (stats : EmailLogStats) (account_info : CompleteAccountInfo)
    (target_emails : List String) (position : String) : Bool × EmailLogStats :=
  if is_position_blocked account_info.data position then
    (false, { stats with unrelevan_position := stats.unrelevan_position + 1 })
  else
    match scanDuplicates check account_info.account.email target_emails with
    | .allClear => (true, stats)
    | .dupFound _ => (false, { stats with duplicate := stats.duplicate + 1 })
    | .dbError => (false, stats)

/-- `EmailSender._should_send_email`, with the mutated `self.stats` threaded
explicitly: gender gate (set membership of the lower-cased required gender
against the lower-cased profile gender), then blocked-position gate, then
duplicate gate. -/
def should_send_email (check : String → String → Except Unit Bool)
    (stats : EmailLogStats) (account_info : CompleteAccountInfo)
    (target_emails : List String) (position : String) (job_gender : Option String) :
    Bool × EmailLogStats :=
  if truthyStr job_gender then
    if strLower account_info.profile.gender == "male"
        && FEMALE_KEYWORDS.contains (strLower (job_gender.getD "")) then
      (false, { stats with unmatch_gender := stats.unmatch_gender + 1 })
    else if strLower account_info.profile.gender == "female"
        && MALE_KEYWORDS.contains (strLower (job_gender.getD "")) then
      (false, { stats with unmatch_gender := stats.unmatch_gender + 1 })
    else
      shouldSendAfterGender check stats account_info target_emails position
  else
    shouldSendAfterGender check stats account_info target_emails position

/-! ## Validation (src/helper/email_helper.py, `EmailHelper._validate_and_extract`
and `EmailHelper.normalize_emails`) -/

/-- One element of the incoming `email` JSON list: a Python string, or a value
of any other runtime type (skipped by the `isinstance(email, str)` check). -/
inductive PyItem where
  | str (s : String)
  | nonstr

/-- Model of Python `str.strip()`: drop leading and trailing whitespace. -/
def stripWS (l : List Char) : List Char :=
  ((l.dropWhile Char.isWhitespace).reverse.dropWhile Char.isWhitespace).reverse

/-- `EmailHelper.normalize_emails`: keep the string elements, lower-case and
strip each, drop the ones that become empty, and collect them into a set
(modelled as a de-duplicated list). -/
def normalize_emails (emails : List PyItem) : List String :=
  (emails.filterMap fun e =>
    match e with
    | .str s =>
      let cleaned := String.mk (stripWS (s.toList.map Char.toLower))
      if cleaned == "" then none else some cleaned
    | .nonstr => none).dedup

/-- The `email` field of the event dict as seen by
`not target or not isinstance(target, list)`: `absent` covers a missing key,
`None`, and every other falsy value (they all fail the first disjunct);
`nonlistTruthy` covers truthy values of non-list type (they fail the
`isinstance` disjunct); `ofList` is an actual list (possibly empty — an empty
list is falsy and fails the first disjunct). -/
inductive TargetField where
  | absent
  | ofList (items : List PyItem)
  | nonlistTruthy

/-- The `extracted_data` event dict, restricted to the fields the send path
reads (`email`, `position`, `subject_email`, `gender_required`); `none`
models an absent key or JSON `null`. -/
structure EmailData where
  email : TargetField
  position : Option String
  subject_email : Option String
  gender_required : Option String

/-- `EmailHelper._validate_and_extract`.  `.error ()` models raising the
helper-module `EmailValidationError`. -/
def validate_and_extract (email_data : EmailData) :
    Except Unit (List String × String × Option String) :=
  match email_data.email with
  | .ofList items =>
    if items.isEmpty then .error ()
    else
      let normalized_targets := normalize_emails items
      if normalized_targets.isEmpty then .error ()
      else
        let position := String.mk (stripWS ((email_data.position.getD "").toList))
        if position == "" then .error ()
        else .ok (normalized_targets, position, email_data.gender_required)
  | _ => .error ()

/-! ## Subject transform (src/helper/email_helper.py `EmailHelper.clean_subject`,
src/services/emailer.py `EmailSender._prepare_subject`) -/

/-- Try to match the regex `\{\{(\w+)\}\}` at the head of the character list;
on success return the captured word and the remaining characters. -/
def parsePlaceholder : List Char → Option (String × List Char)
  | '{' :: '{' :: rest =>
    let word := rest.takeWhile isWordChar
    if word.isEmpty then none
    else
      match rest.dropWhile isWordChar with
      | '}' :: '}' :: tail => some (String.mk word, tail)
      | _ => none
  | _ => none

/-- `data.get(key)` on the replacement dict (association list; `none` models
both an absent key and a `None` value, which `clean_subject` treats alike). -/
def lookupData (data : List (String × String)) (key : String) : Option String :=
  (data.find? (fun p => p.1 == key)).map (·.2)

/-- The left-to-right non-overlapping scan of
`re.sub(r'\{\{(\w+)\}\}', replace_placeholder, subject)`: a known key is
replaced by its value, an unknown key by the empty string; elsewhere the scan
advances one character.  The fuel argument (always called with the input
length, which the scan never exhausts since every step consumes at least one
character) keeps the recursion structural. -/
def substPlaceholdersAux (data : List (String × String)) : Nat → List Char → List Char
  | 0, l => l
  | _ + 1, [] => []
  | fuel + 1, c :: rest =>
    match parsePlaceholder (c :: rest) with
    | some (key, tail) =>
      (match lookupData data key with
       | some v => v.toList
       | none => []) ++ substPlaceholdersAux data fuel tail
    | none => c :: substPlaceholdersAux data fuel rest

def substPlaceholders (data : List (String × String)) (l : List Char) : List Char :=
  substPlaceholdersAux data l.length l

/-- Whether `re.sub(r'\{\{(\w+)\}\}', ...)` finds at least one match in the
subject (decides whether the replacement callback runs at all). -/
def containsPlaceholder : List Char → Bool
  | [] => false
  | c :: rest => (parsePlaceholder (c :: rest)).isSome || containsPlaceholder rest

/-- State of the run-collapsing scan: not inside a run / inside a run of
exactly one character (kept verbatim, as `X{2,}` does not match a single
character) / inside a run of two or more (rewritten to the replacement). -/
inductive RunSt where
  | clear
  | single (c : Char)
  | multi

def flushRun (rep : Char) : RunSt → List Char
  | .clear => []
  | .single c => [c]
  | .multi => [rep]

/-- Model of `re.sub(X{2,}, rep, s)` where `X` is the character class decided
by `p`: maximal runs of two or more `p`-characters become the single
character `rep`; single `p`-characters stay as they are. -/
def collapseRunAux (p : Char → Bool) (rep : Char) (st : RunSt) : List Char → List Char
  | [] => flushRun rep st
  | c :: rest =>
    if p c then
      match st with
      | .clear => collapseRunAux p rep (.single c) rest
      | _ => collapseRunAux p rep .multi rest
    else
      flushRun rep st ++ c :: collapseRunAux p rep .clear rest

def collapseRun (p : Char → Bool) (rep : Char) (l : List Char) : List Char :=
  collapseRunAux p rep .clear l

/-- The character class `[_\-\s]` of the leading/trailing-separator strips. -/
def isSepChar (c : Char) : Bool := c == '_' || c == '-' || c.isWhitespace

/-- The post-substitution cleanup of `clean_subject`, in source order:
collapse `_{2,}`, `-{2,}`, `\s{2,}`; strip trailing then leading
`[_\-\s]+`; final `str.strip()`. -/
def cleanupSeparators (l : List Char) : List Char :=
  let c1 := collapseRun (fun c => c == '_') '_' l
  let c2 := collapseRun (fun c => c == '-') '-' c1
  let c3 := collapseRun Char.isWhitespace ' ' c2
  let c4 := (c3.reverse.dropWhile isSepChar).reverse
  let c5 := c4.dropWhile isSepChar
  stripWS c5

/-- `EmailHelper.clean_subject` as declared (replacement data an actual
dict): substitute `{{word}}` placeholders, clean separators, and fall back to
the default subject when everything was removed. -/
def clean_subject (subject : String) (data : List (String × String)) : String :=
  let substituted := substPlaceholders data subject.toList
  let cleaned := cleanupSeparators substituted
  if cleaned.isEmpty then
    "Lamaran Pekerjaan - " ++ (lookupData data "name").getD "Applicant"
  else String.mk cleaned

/-- `clean_subject` as actually invoked by `EmailSender._prepare_subject`,
which passes the display name — a `str`, not a dict — as `data`.  Whenever the
replacement callback or the empty-subject fallback would call `data.get`,
the call raises `AttributeError` (modelled `.error ()`); otherwise the result
is the separator cleanup of the unchanged subject. -/
def clean_subject_strdata (subject : String) : Except Unit String :=
  if containsPlaceholder subject.toList then .error ()
  else
    let cleaned := cleanupSeparators subject.toList
    if cleaned.isEmpty then .error ()
    else .ok (String.mk cleaned)

/-- The synthesized subject of `_prepare_subject` when the event supplies
none: `"{position} - {name}"`, or `"Lamaran Pekerjaan - {name}"` when the
position is empty. -/
def defaultSubject (position name : String) : String :=
  if position == "" then s!"Lamaran Pekerjaan - {name}" else s!"{position} - {name}"

/-- `EmailSender._prepare_subject` (`raw_subject` falsy means key absent,
`null`, or the empty string). -/
def prepare_subject (email_data : EmailData) (position : String) (name : String) :
    Except Unit String :=
  match email_data.subject_email with
  | none => .ok (defaultSubject position name)
  | some raw => if raw == "" then .ok (defaultSubject position name)
                else clean_subject_strdata raw

/-! ## Sent-log store (src/services/database/email_services.py,
`SentLogService`) -/

/-- One row of `email.sent_logs` (timestamps as abstract ticks). -/
structure SentRow where
  target_email : String
  sender_email : String
  sent_at : Nat
deriving DecidableEq, Repr

/-- The SQL `EXISTS(SELECT 1 ... WHERE target_email = $1 AND sender_email = $2)`
of `check_already_sent`, over an explicit table state. -/
def pairExists (table : List SentRow) (target sender : String) : Bool :=
  table.any fun r => r.target_email == target && r.sender_email == sender

/-- One `INSERT ... ON CONFLICT (target_email, sender_email) DO NOTHING
RETURNING id` under the unique constraint: a no-op reporting `false` when the
pair exists, an append reporting `true` otherwise. -/
def insertIgnore (table : List SentRow) (target sender : String) (now : Nat) :
    List SentRow × Bool :=
  if pairExists table target sender then (table, false)
  else (table ++ [⟨target, sender, now⟩], true)

/-- `SentLogService.record_sent_batch`: insert each `(target, sender)` pair in
order with a shared timestamp, counting the inserts that actually returned a
row. -/
def record_sent_batch (table : List SentRow) (now : Nat)
    (emails : List (String × String)) : List SentRow × Nat :=
  emails.foldl
    (fun acc p =>
      let r := insertIgnore acc.1 p.1 p.2 now
      (r.1, acc.2 + if r.2 then 1 else 0))
    (table, 0)

/-- Number of stored rows for one `(target, sender)` pair. -/
def countPair (table : List SentRow) (target sender : String) : Nat :=
  (table.filter fun r => r.target_email == target && r.sender_email == sender).length

/-! ## The dispatch unit (src/services/emailer.py,
`EmailSender.send_email_for_account`) -/

inductive SmtpErr where
  | auth
  | protocol
deriving DecidableEq, Repr

/-- The exception classes distinguishable by the `except` clauses of
`send_email_for_account`.  `helperValidation` is the `EmailValidationError`
defined in src/helper/email_helper.py (the one `_validate_and_extract`
raises); `emailerValidation` is the distinct class of the same name defined
in src/services/emailer.py (the one the `except EmailValidationError` clause
names); `attrError` is the `AttributeError` raised by `clean_subject` when
its string-typed `data` receives `.get`. -/
inductive PyErr where
  | helperValidation
  | emailerValidation
  | smtp (e : SmtpErr)
  | fileNotFound
  | attrError
  | dbError
deriving DecidableEq, Repr

/-- Externally observable effects of one dispatch: SMTP messages accepted by
the transport (sender, recipient list) and sent-log rows written. -/
structure SendEffects where
  sends : List (String × List String)
  records : List (String × String)
deriving DecidableEq, Repr

/-- The collaborators of one dispatch: the account lookup
(`CompleteAccountService.get_complete_account_info`; `.error` a raising
query), the duplicate-check query, template/CV file existence by username,
the SMTP transport outcome by sender address, and whether the sent-log
insert succeeds. -/
structure DispatchEnv where
  lookup : Nat → Except Unit (Option CompleteAccountInfo)
  checkSent : String → String → Except Unit Bool
  templateExists : String → Bool
  cvExists : String → Bool
  smtpSend : String → Except SmtpErr Unit
  recordOk : Bool

/-- The `try` body of `send_email_for_account`, steps in source order:
account lookup, validate/extract, business rules, subject preparation,
template load, CV attachment, SMTP send, sent-log recording, sent-counter
update.  An exception carries the stats and effects at the raise point. -/
def send_body (env : DispatchEnv) (stats : EmailLogStats) (account_id : Nat)
    (email_data : EmailData) :
    Except (PyErr × EmailLogStats × SendEffects) (Bool × EmailLogStats × SendEffects) :=
  match env.lookup account_id with
  | .error _ => .error (.dbError, stats, ⟨[], []⟩)
  | .ok none => .ok (false, stats, ⟨[], []⟩)
  | .ok (some account_info) =>
    match validate_and_extract email_data with
    | .error _ => .error (.helperValidation, stats, ⟨[], []⟩)
    | .ok (target_emails, position, job_gender) =>
      match should_send_email env.checkSent stats account_info target_emails position
          job_gender with
      | (false, stats1) => .ok (false, stats1, ⟨[], []⟩)
      | (true, stats1) =>
        match prepare_subject email_data position account_info.profile.name with
        | .error _ => .error (.attrError, stats1, ⟨[], []⟩)
        | .ok _subject =>
          if !env.templateExists account_info.profile.username then
            .error (.fileNotFound, stats1, ⟨[], []⟩)
          else if !env.cvExists account_info.profile.username then
            .error (.fileNotFound, stats1, ⟨[], []⟩)
          else
            match env.smtpSend account_info.account.email with
            | .error e => .error (.smtp e, stats1, ⟨[], []⟩)
            | .ok _ =>
              let eff : SendEffects := ⟨[(account_info.account.email, target_emails)], []⟩
              if !env.recordOk then .error (.dbError, stats1, eff)
              else
                .ok (true,
                  { stats1 with emails_sent := stats1.emails_sent + target_emails.length },
                  ⟨eff.sends, target_emails.map fun t => (t, account_info.account.email)⟩)

/-- `send_email_for_account` with its `except` ladder: the emailer-module
`EmailValidationError` and the SMTP exceptions return `False` with no counter
change; every other exception (including the helper-module
`EmailValidationError`, which the first clause does not catch) falls to
`except Exception`, which increments `failed`. -/
def send_email_for_account (env : DispatchEnv) (stats : EmailLogStats)
    (account_id : Nat) (email_data : EmailData) : Bool × EmailLogStats × SendEffects :=
  match send_body env stats account_id email_data with
  | .ok r => r
  | .error (.emailerValidation, s, eff) => (false, s, eff)
  | .error (.smtp _, s, eff) => (false, s, eff)
  | .error (_, s, eff) => (false, { s with failed := s.failed + 1 }, eff)

/-! ## Batch coordinator (src/services/emailer.py,
`BatchEmailProcessor.process_job_application`) -/

/-- `results[account_email] = success` on a Python dict modelled as an
insertion-ordered association list: update in place if the key exists,
append otherwise. -/
def dictSet (m : List (String × Bool)) (k : String) (v : Bool) : List (String × Bool) :=
  if m.any (fun p => p.1 == k) then
    m.map fun p => if p.1 == k then (k, v) else p
  else m ++ [(k, v)]

/-- Dict lookup on the outcome map. -/
def dictGet (m : List (String × Bool)) (k : String) : Option Bool :=
  (m.find? (fun p => p.1 == k)).map (·.2)

/-- The per-identity `try/except` of the batch loop: an unhandled dispatch
exception is recorded as `False`. -/
def toOutcome : Except Unit Bool → Bool
  | .ok b => b
  | .error _ => false

/-- The `for account_info in complete_accounts` loop, accumulating the
outcome dict. -/
def processLoop (dispatch : CompleteAccountInfo → Except Unit Bool) :
    List CompleteAccountInfo → List (String × Bool) → List (String × Bool)
  | [], results => results
  | account_info :: rest, results =>
    processLoop dispatch rest
      (dictSet results account_info.account.email (toOutcome (dispatch account_info)))

/-- `BatchEmailProcessor.process_job_application` over an explicit dispatch
oracle (`dispatch` may return an outcome or raise) and snapshot oracle
(`get_all_active_complete_accounts`, which may raise — the outer `except`
then returns the results accumulated so far, here the empty dict).
Increments `processed` once per event before anything else. -/
def process_job_application (dispatch : CompleteAccountInfo → Except Unit Bool)
    (snapshot : Except Unit (List CompleteAccountInfo)) (stats : EmailLogStats) :
    List (String × Bool) × EmailLogStats :=
  let stats1 := { stats with processed := stats.processed + 1 }
  match snapshot with
  | .error _ => ([], stats1)
  | .ok complete_accounts => (processLoop dispatch complete_accounts [], stats1)

/-! ## Payload gate (src/main.py, `AutoEmailer._handle_payload` and
`AutoEmailer._process_email`) -/

/-- The decoded payload restricted to what `_handle_payload` inspects:
`type` (`none` = key absent or non-string null) and `extracted_data`
(`none` = absent, `null`, or an empty dict — all falsy, all rejected before
any field access). -/
structure ExtractedData where
  is_job_vacancy : Bool
  email : List String
deriving DecidableEq, Repr

structure Payload where
  type : Option String
  extracted_data : Option ExtractedData
deriving DecidableEq, Repr

/-- `AutoEmailer._process_email`: `targets` is already a list here, so only
the `if not targets: return` guard can stop the call to the batch processor.
Returns whether the batch processor is invoked. -/
def process_email_invokes (extracted_data : ExtractedData) : Bool :=
  !extracted_data.email.isEmpty

/-- `AutoEmailer._handle_payload`: the event-shape gate, returning whether
the Batch Coordinator (`process_job_application`) ends up invoked. -/
def handle_payload (payload : Payload) : Bool :=
  if !(payload.type == some "job_vacancy") then false
  else
    match payload.extracted_data with
    | none => false
    | some extracted_data =>
      if !extracted_data.is_job_vacancy then false
      else if extracted_data.email.isEmpty then false
      else process_email_invokes extracted_data

/-! ## Shutdown sequence (src/main.py `AutoEmailer.stop`,
src/services/redis_subscriber.py `RedisSubscriber.stop`) -/

/-- The externally visible teardown actions of `AutoEmailer.stop`, in the
order they can occur. -/
inductive StopAction where
  | markStopped
  | cancelStatsTask
  | awaitStatsTask
  | setShutdownEvent
  | cancelSubscriberTask
  | awaitSubscriberTask
  | unsubscribe
  | closePubsub
  | closeRedis
  | closeDb
deriving DecidableEq, Repr

/-- The state `stop` consults: the reentrancy flag and which resources exist
(`self.stats_task`, `self.subscriber`, `subscriber.task` running,
`subscriber.pubsub`). -/
structure EmailerState where
  stopped : Bool
  hasStatsTask : Bool
  hasSubscriber : Bool
  subTaskRunning : Bool
  subHasPubsub : Bool
deriving DecidableEq, Repr

/-- `RedisSubscriber.stop`: cancel and await the task if present and not
done, then unsubscribe and close the pubsub if present. -/
def subscriber_stop (st : EmailerState) : List StopAction :=
  (if st.subTaskRunning then [.cancelSubscriberTask, .awaitSubscriberTask] else []) ++
  (if st.subHasPubsub then [.unsubscribe, .closePubsub] else [])

/-- `AutoEmailer.stop`: under the shutdown lock, return immediately when
already stopped; otherwise set the flag and run the teardown actions in
source order — stats task, shutdown event, subscriber stop, then
`redis.close_redis()` followed by `db.close_pool()`. -/
def autoemailer_stop (st : EmailerState) : EmailerState × List StopAction :=
  if st.stopped then (st, [])
  else
    ({ st with stopped := true, subTaskRunning := false, subHasPubsub := false },
      [StopAction.markStopped] ++
      (if st.hasStatsTask then [.cancelStatsTask, .awaitStatsTask] else []) ++
      [StopAction.setShutdownEvent] ++
      (if st.hasSubscriber then subscriber_stop st else []) ++
      [StopAction.closeRedis, StopAction.closeDb])

/-! ## Supporting lemmas -/

theorem strLower_empty_mem_female (h : strLower "" ∈ FEMALE_KEYWORDS) : False := by
  revert h
  decide

theorem strLower_empty_mem_male (h : strLower "" ∈ MALE_KEYWORDS) : False := by
  revert h
  decide

theorem shouldSendAfterGender_unmatch (check : String → String → Except Unit Bool)
    (stats : EmailLogStats) (account_info : CompleteAccountInfo)
    (target_emails : List String) (position : String) :
    (shouldSendAfterGender check stats account_info target_emails position).2.unmatch_gender =
      stats.unmatch_gender := by
  unfold shouldSendAfterGender
  split
  · rfl
  · split <;> rfl

/-- Fixture: an active male identity with an empty block list. -/
def acctMale : CompleteAccountInfo :=
  { account := { id := 1, email := "sender@gmail.com", app_password := "pw", is_active := true }
    profile := { account_id := 1, name := "John", username := "john", gender := "male",
                 phone := "0800" }
    data := { account_id := 1, keywords := [], regex_patterns := [] } }

/-- C3: for every identity and event, if the event's requiredGender lowercases
into the female-keyword set while the identity's gender is "male" (or
lowercases into the male-keyword set while the identity's gender is
"female"), `_should_send_email` denies, bumping exactly the gender-mismatch
counter; when requiredGender is absent it never denies on gender and falls
through to the remaining gates unchanged.  Matching is case-insensitive set
membership. -/
theorem gender_gate_correct (check : String → String → Except Unit Bool)
    (stats : EmailLogStats) (account_info : CompleteAccountInfo)
    (target_emails : List String) (position : String) (job_gender : Option String) :
    (∀ g, job_gender = some g → strLower g ∈ FEMALE_KEYWORDS →
      account_info.profile.gender = "male" →
      should_send_email check stats account_info target_emails position job_gender =
        (false, { stats with unmatch_gender := stats.unmatch_gender + 1 })) ∧
    (∀ g, job_gender = some g → strLower g ∈ MALE_KEYWORDS →
      account_info.profile.gender = "female" →
      should_send_email check stats account_info target_emails position job_gender =
        (false, { stats with unmatch_gender := stats.unmatch_gender + 1 })) ∧
    (job_gender = none →
      should_send_email check stats account_info target_emails position job_gender =
        shouldSendAfterGender check stats account_info target_emails position ∧
      (should_send_email check stats account_info target_emails position
          job_gender).2.unmatch_gender = stats.unmatch_gender) := by
  refine ⟨?_, ?_, ?_⟩
  · intro g hg hmem hgender
    subst hg
    have hne : (g == "") = false := by
      cases h : g == ""
      · rfl
      · exact absurd hmem (by rw [eq_of_beq h]; exact strLower_empty_mem_female)
    have ht : truthyStr (some g) = true := by simp [truthyStr, hne]
    have hcontains : FEMALE_KEYWORDS.contains (strLower g) = true :=
      List.elem_eq_true_of_mem hmem
    have hm : (strLower "male" == "male") = true := by decide
    unfold should_send_email
    rw [ht, if_pos rfl]
    simp only [Option.getD_some]
    rw [hgender, hm, hcontains]
    rfl
  · intro g hg hmem hgender
    subst hg
    have hne : (g == "") = false := by
      cases h : g == ""
      · rfl
      · exact absurd hmem (by rw [eq_of_beq h]; exact strLower_empty_mem_male)
    have ht : truthyStr (some g) = true := by simp [truthyStr, hne]
    have hcontains : MALE_KEYWORDS.contains (strLower g) = true :=
      List.elem_eq_true_of_mem hmem
    have hf1 : (strLower "female" == "male") = false := by decide
    have hf2 : (strLower "female" == "female") = true := by decide
    unfold should_send_email
    rw [ht, if_pos rfl]
    simp only [Option.getD_some]
    rw [hgender, hf1]
    simp only [Bool.false_and]
    rw [if_neg (by simp), hf2]
    simp only [hcontains]
    rfl
  · intro hg
    subst hg
    refine ⟨rfl, ?_⟩
    show (shouldSendAfterGender check stats account_info target_emails position).2.unmatch_gender = _
    exact shouldSendAfterGender_unmatch check stats account_info target_emails position

/-- Witness for `gender_gate_correct`: the concrete event gender "Wanita"
against the male fixture identity is denied with exactly the gender counter
bumped. -/
theorem gender_gate_correct_witness :
    should_send_email (fun _ _ => Except.ok false) {} acctMale ["hr@x.com"] "Backend"
        (some "Wanita") =
      (false, { ({} : EmailLogStats) with unmatch_gender := 1 }) :=
  (gender_gate_correct (fun _ _ => Except.ok false) {} acctMale ["hr@x.com"] "Backend"
      (some "Wanita")).1 "Wanita" rfl (by decide) rfl

/-- C4: `is_position_blocked` normalizes the position (collapse whitespace,
lower-case) and returns a block exactly when some configured keyword is a
case-insensitive substring of the normalized position or some well-formed
configured regex matches it; a malformed regex anywhere in the pattern list
never changes the outcome by itself (and, the oracle being total, never
raises). -/
theorem blocked_position_gate_correct (account_data : EmailAccountData) (position : String) :
    (is_position_blocked account_data position = true ↔
      (∃ keyword ∈ account_data.keywords,
        containsSublist (keyword.toList.map Char.toLower) (normalizePosition position) = true) ∨
      (∃ f, RePattern.valid f ∈ account_data.regex_patterns ∧
        f (normalizePosition position) = true)) ∧
    (∀ ps1 ps2,
      is_position_blocked
          { account_data with regex_patterns := ps1 ++ RePattern.invalid :: ps2 } position =
        is_position_blocked { account_data with regex_patterns := ps1 ++ ps2 } position) := by
  constructor
  · unfold is_position_blocked
    rw [Bool.or_eq_true, List.any_eq_true, List.any_eq_true]
    constructor
    · rintro (⟨k, hk, hsub⟩ | ⟨p, hp, hhit⟩)
      · exact Or.inl ⟨k, hk, hsub⟩
      · cases p with
        | valid f => exact Or.inr ⟨f, hp, hhit⟩
        | invalid => exact absurd hhit (by simp [rePatternHits])
    · rintro (⟨k, hk, hsub⟩ | ⟨f, hf, hhit⟩)
      · exact Or.inl ⟨k, hk, hsub⟩
      · exact Or.inr ⟨RePattern.valid f, hf, hhit⟩
  · intro ps1 ps2
    unfold is_position_blocked
    simp only [List.any_append, List.any_cons]
    simp [rePatternHits]

theorem scanDuplicates_allClear_iff (check : String → String → Except Unit Bool)
    (sender : String) (targets : List String) :
    scanDuplicates check sender targets = .allClear ↔
      ∀ t ∈ targets, check t sender = .ok false := by
  induction targets with
  | nil => simp [scanDuplicates]
  | cons t ts ih =>
    simp only [scanDuplicates, List.forall_mem_cons]
    cases h : check t sender with
    | error e => simp [h]
    | ok b =>
      cases b
      · simp [h, ih]
      · simp [h]

theorem shouldSendAfterGender_true_allClear (check : String → String → Except Unit Bool)
    (stats : EmailLogStats) (account_info : CompleteAccountInfo)
    (target_emails : List String) (position : String)
    (h : (shouldSendAfterGender check stats account_info target_emails position).1 = true) :
    scanDuplicates check account_info.account.email target_emails = .allClear := by
  unfold shouldSendAfterGender at h
  split at h
  · simp at h
  · split at h
    · assumption
    · simp at h
    · simp at h

theorem should_send_true_allClear (check : String → String → Except Unit Bool)
    (stats : EmailLogStats) (account_info : CompleteAccountInfo)
    (target_emails : List String) (position : String) (job_gender : Option String)
    (h : (should_send_email check stats account_info target_emails position job_gender).1
          = true) :
    scanDuplicates check account_info.account.email target_emails = .allClear := by
  unfold should_send_email at h
  split at h
  · split at h
    · simp at h
    · split at h
      · simp at h
      · exact shouldSendAfterGender_true_allClear _ _ _ _ _ h
  · exact shouldSendAfterGender_true_allClear _ _ _ _ _ h

/-- C1: all-or-none duplicate gate, fail-closed.  For a dispatch whose account
resolves and whose event validates, if any normalized target already has a
sent record for the identity's sender address, or the duplicate-check query
fails on some target, then `send_email_for_account` returns `False` and no
SMTP send and no sent-record write happens for any target. -/
theorem duplicate_gate_all_or_none (env : DispatchEnv) (stats : EmailLogStats)
    (account_id : Nat) (email_data : EmailData) (account_info : CompleteAccountInfo)
    (target_emails : List String) (position : String) (job_gender : Option String)
    (hacct : env.lookup account_id = .ok (some account_info))
    (hval : validate_and_extract email_data = .ok (target_emails, position, job_gender))
    (hdup : (∃ t ∈ target_emails, env.checkSent t account_info.account.email = .ok true) ∨
            (∃ t ∈ target_emails, env.checkSent t account_info.account.email = .error ())) :
    (send_email_for_account env stats account_id email_data).1 = false ∧
    (send_email_for_account env stats account_id email_data).2.2.sends = [] ∧
    (send_email_for_account env stats account_id email_data).2.2.records = [] := by
  have hscan :
      ¬ scanDuplicates env.checkSent account_info.account.email target_emails = .allClear := by
    rw [scanDuplicates_allClear_iff]
    intro hall
    rcases hdup with ⟨t, ht, hc⟩ | ⟨t, ht, hc⟩ <;> rw [hall t ht] at hc <;> simp at hc
  rcases hq : should_send_email env.checkSent stats account_info target_emails position
      job_gender with ⟨b, s1⟩
  have hb : b = false := by
    cases b
    · rfl
    · exact absurd
        (should_send_true_allClear env.checkSent stats account_info target_emails position
          job_gender (by rw [hq])) hscan
  subst hb
  unfold send_email_for_account send_body
  simp only [hacct, hval, hq]
  exact ⟨trivial, trivial, trivial⟩

/-- Fixture environment for the duplicate-gate witness: the duplicate check
reports an existing record for every pair. -/
def envDup : DispatchEnv :=
  { lookup := fun _ => .ok (some acctMale)
    checkSent := fun _ _ => .ok true
    templateExists := fun _ => true
    cvExists := fun _ => true
    smtpSend := fun _ => .ok ()
    recordOk := true }

/-- Fixture: a well-formed job event with one target address. -/
def eventData : EmailData :=
  { email := .ofList [.str "hr@x.com"], position := some "Backend"
    subject_email := none, gender_required := none }

/-- Witness for `duplicate_gate_all_or_none` at a concrete environment. -/
theorem duplicate_gate_all_or_none_witness :
    (send_email_for_account envDup {} 1 eventData).1 = false ∧
    (send_email_for_account envDup {} 1 eventData).2.2.sends = [] ∧
    (send_email_for_account envDup {} 1 eventData).2.2.records = [] :=
  duplicate_gate_all_or_none envDup {} 1 eventData acctMale ["hr@x.com"] "Backend" none rfl
    rfl (Or.inl ⟨"hr@x.com", by decide, rfl⟩)

theorem shouldSendAfterGender_invariant (check : String → String → Except Unit Bool)
    (stats : EmailLogStats) (account_info : CompleteAccountInfo)
    (target_emails : List String) (position : String) :
    shouldSendAfterGender check stats account_info target_emails position = (true, stats) ∨
    shouldSendAfterGender check stats account_info target_emails position =
      (false, { stats with unrelevan_position := stats.unrelevan_position + 1 }) ∨
    shouldSendAfterGender check stats account_info target_emails position =
      (false, { stats with duplicate := stats.duplicate + 1 }) ∨
    shouldSendAfterGender check stats account_info target_emails position = (false, stats) := by
  unfold shouldSendAfterGender
  split
  · exact Or.inr (Or.inl rfl)
  · split
    · exact Or.inl rfl
    · exact Or.inr (Or.inr (Or.inl rfl))
    · exact Or.inr (Or.inr (Or.inr rfl))

theorem should_send_email_cases (check : String → String → Except Unit Bool)
    (stats : EmailLogStats) (account_info : CompleteAccountInfo)
    (target_emails : List String) (position : String) (job_gender : Option String) :
    should_send_email check stats account_info target_emails position job_gender
        = (true, stats) ∨
    should_send_email check stats account_info target_emails position job_gender =
      (false, { stats with unmatch_gender := stats.unmatch_gender + 1 }) ∨
    should_send_email check stats account_info target_emails position job_gender =
      (false, { stats with unrelevan_position := stats.unrelevan_position + 1 }) ∨
    should_send_email check stats account_info target_emails position job_gender =
      (false, { stats with duplicate := stats.duplicate + 1 }) ∨
    should_send_email check stats account_info target_emails position job_gender
        = (false, stats) := by
  unfold should_send_email
  split
  · split
    · exact Or.inr (Or.inl rfl)
    · split
      · exact Or.inr (Or.inl rfl)
      · rcases shouldSendAfterGender_invariant check stats account_info target_emails position
          with h | h | h | h <;> rw [h]
        · exact Or.inl rfl
        · exact Or.inr (Or.inr (Or.inl rfl))
        · exact Or.inr (Or.inr (Or.inr (Or.inl rfl)))
        · exact Or.inr (Or.inr (Or.inr (Or.inr rfl)))
  · rcases shouldSendAfterGender_invariant check stats account_info target_emails position
      with h | h | h | h <;> rw [h]
    · exact Or.inl rfl
    · exact Or.inr (Or.inr (Or.inl rfl))
    · exact Or.inr (Or.inr (Or.inr (Or.inl rfl)))
    · exact Or.inr (Or.inr (Or.inr (Or.inr rfl)))

/-- C10 counterexample: a call of the eligibility check whose duplicate-check
query raises is a denial (`False`) that increments none of the three skip
counters — contradicting the claim that every denial increments exactly one
of them by exactly one. -/
theorem skip_counter_counterexample :
    (should_send_email (fun _ _ => Except.error ()) {} acctMale ["hr@x.com"] "Backend"
        none).1 = false ∧
    (should_send_email (fun _ _ => Except.error ()) {} acctMale ["hr@x.com"] "Backend"
        none).2 = ({} : EmailLogStats) ∧
    ¬ ((should_send_email (fun _ _ => Except.error ()) {} acctMale ["hr@x.com"] "Backend"
          none).2.unmatch_gender
        + (should_send_email (fun _ _ => Except.error ()) {} acctMale ["hr@x.com"] "Backend"
            none).2.unrelevan_position
        + (should_send_email (fun _ _ => Except.error ()) {} acctMale ["hr@x.com"] "Backend"
            none).2.duplicate
        = ({} : EmailLogStats).unmatch_gender + ({} : EmailLogStats).unrelevan_position
          + ({} : EmailLogStats).duplicate + 1) := by
  decide

/-- The combined condition of the two gender-gate `if`s of
`_should_send_email` (src/services/emailer.py lines 143-161): a truthy
required gender that lower-cases into the female-keyword set against a male
profile, or into the male-keyword set against a female profile. -/
def genderGateDenies (account_info : CompleteAccountInfo) (job_gender : Option String) : Bool :=
  truthyStr job_gender &&
    ((strLower account_info.profile.gender == "male"
        && FEMALE_KEYWORDS.contains (strLower (job_gender.getD "")))
      || (strLower account_info.profile.gender == "female"
        && MALE_KEYWORDS.contains (strLower (job_gender.getD ""))))

theorem should_send_email_of_gender_clear (check : String → String → Except Unit Bool)
    (stats : EmailLogStats) (account_info : CompleteAccountInfo)
    (target_emails : List String) (position : String) (job_gender : Option String)
    (hg : genderGateDenies account_info job_gender = false) :
    should_send_email check stats account_info target_emails position job_gender =
      shouldSendAfterGender check stats account_info target_emails position := by
  unfold genderGateDenies at hg
  unfold should_send_email
  cases ht : truthyStr job_gender
  · rw [if_neg (by simp [ht])]
  · rw [ht, Bool.true_and] at hg
    rw [if_pos rfl]
    obtain ⟨hg1, hg2⟩ := Bool.or_eq_false_iff.mp hg
    rw [hg1, if_neg (by simp), hg2, if_neg (by simp)]

/-- C10 amended: each denial of the eligibility check increments exactly the
counter of the gate that fired, by one, all other counters — including
`emails_sent`, `processed` and `failed` — unchanged: the gender gate bumps
`unmatch_gender`, the blocked-position gate `unrelevan_position`, a found
duplicate `duplicate`; the fail-closed denial from a duplicate-lookup
failure increments none of them, and an allow increments none. -/
theorem skip_counter_invariant (check : String → String → Except Unit Bool)
    (stats : EmailLogStats) (account_info : CompleteAccountInfo)
    (target_emails : List String) (position : String) (job_gender : Option String) :
    (genderGateDenies account_info job_gender = true →
      should_send_email check stats account_info target_emails position job_gender =
        (false, { stats with unmatch_gender := stats.unmatch_gender + 1 })) ∧
    (genderGateDenies account_info job_gender = false →
      is_position_blocked account_info.data position = true →
      should_send_email check stats account_info target_emails position job_gender =
        (false, { stats with unrelevan_position := stats.unrelevan_position + 1 })) ∧
    (genderGateDenies account_info job_gender = false →
      is_position_blocked account_info.data position = false →
      ∀ t, scanDuplicates check account_info.account.email target_emails = .dupFound t →
        should_send_email check stats account_info target_emails position job_gender =
          (false, { stats with duplicate := stats.duplicate + 1 })) ∧
    (genderGateDenies account_info job_gender = false →
      is_position_blocked account_info.data position = false →
      scanDuplicates check account_info.account.email target_emails = .dbError →
      should_send_email check stats account_info target_emails position job_gender =
        (false, stats)) ∧
    (genderGateDenies account_info job_gender = false →
      is_position_blocked account_info.data position = false →
      scanDuplicates check account_info.account.email target_emails = .allClear →
      should_send_email check stats account_info target_emails position job_gender =
        (true, stats)) := by
  refine ⟨?_, ?_, ?_, ?_, ?_⟩
  · intro hg
    unfold genderGateDenies at hg
    rw [Bool.and_eq_true] at hg
    obtain ⟨ht, hor⟩ := hg
    unfold should_send_email
    rw [ht, if_pos rfl]
    rw [Bool.or_eq_true] at hor
    rcases hor with hc | hc
    · rw [hc, if_pos rfl]
    · have hfem : (("female" : String) == "male") = false := by decide
      rw [Bool.and_eq_true] at hc
      obtain ⟨hc1, hc2⟩ := hc
      have h1 : (strLower account_info.profile.gender == "male"
          && FEMALE_KEYWORDS.contains (strLower (job_gender.getD ""))) = false := by
        rw [eq_of_beq hc1, hfem, Bool.false_and]
      have hc' : (strLower account_info.profile.gender == "female"
          && MALE_KEYWORDS.contains (strLower (job_gender.getD ""))) = true := by
        rw [hc1, hc2]
        rfl
      rw [h1, if_neg (by simp), hc', if_pos rfl]
  · intro hg hb
    rw [should_send_email_of_gender_clear check stats account_info target_emails position
      job_gender hg]
    unfold shouldSendAfterGender
    rw [if_pos hb]
  · intro hg hb t hscan
    rw [should_send_email_of_gender_clear check stats account_info target_emails position
      job_gender hg]
    unfold shouldSendAfterGender
    rw [if_neg (by simp [hb]), hscan]
  · intro hg hb hscan
    rw [should_send_email_of_gender_clear check stats account_info target_emails position
      job_gender hg]
    unfold shouldSendAfterGender
    rw [if_neg (by simp [hb]), hscan]
  · intro hg hb hscan
    rw [should_send_email_of_gender_clear check stats account_info target_emails position
      job_gender hg]
    unfold shouldSendAfterGender
    rw [if_neg (by simp [hb]), hscan]

/-- Witness for `skip_counter_invariant`: a concrete denial at the duplicate
gate bumps exactly the `duplicate` counter, and a concrete allow leaves the
stats record unchanged. -/
theorem skip_counter_invariant_witness :
    should_send_email (fun _ _ => Except.ok true) {} acctMale ["hr@x.com"] "Backend" none =
      (false, { ({} : EmailLogStats) with duplicate := 1 }) ∧
    should_send_email (fun _ _ => Except.ok false) {} acctMale ["hr@x.com"] "Backend" none =
      (true, ({} : EmailLogStats)) :=
  ⟨(skip_counter_invariant (fun _ _ => Except.ok true) {} acctMale ["hr@x.com"] "Backend"
      none).2.2.1 (by decide) (by decide) "hr@x.com" rfl,
    (skip_counter_invariant (fun _ _ => Except.ok false) {} acctMale ["hr@x.com"] "Backend"
      none).2.2.2.2 (by decide) (by decide) rfl⟩

/-- Fixture environment whose account lookup finds no record. -/
def envNoAccount : DispatchEnv :=
  { lookup := fun _ => .ok none
    checkSent := fun _ _ => .ok false
    templateExists := fun _ => true
    cvExists := fun _ => true
    smtpSend := fun _ => .ok ()
    recordOk := true }

/-- Fixture: an event whose `email` field is absent (validation would raise). -/
def badEventData : EmailData :=
  { email := .absent, position := some "Backend"
    subject_email := none, gender_required := none }

/-- C9 counterexample: a call of `send_email_for_account` whose event has a
missing target list but whose account lookup returns no row exits before
validation, returning `False` with the `failed` counter left at 0 — against
the claim that every such call increments `failed` by exactly one. -/
theorem validation_counter_counterexample :
    (send_email_for_account envNoAccount {} 1 badEventData).1 = false ∧
    (send_email_for_account envNoAccount {} 1 badEventData).2.1.failed = 0 := by
  decide

/-- C9 amended: for every call of `send_email_for_account` that resolves its
sender account and whose event fails validation (absent/empty/non-list target
list, no valid target after normalization, or blank position), the call
returns `False` with no send and no record written, and `failed` — the
counter touched only by the generic `except Exception` handler, not by the
dedicated `except EmailValidationError` branch, since the helper raises a
different class of that name — is incremented by exactly one, all other
counters unchanged. -/
theorem validation_routed_to_catch_all (env : DispatchEnv) (stats : EmailLogStats)
    (account_id : Nat) (email_data : EmailData) (account_info : CompleteAccountInfo)
    (hacct : env.lookup account_id = .ok (some account_info))
    (hval : validate_and_extract email_data = .error ()) :
    send_email_for_account env stats account_id email_data =
      (false, { stats with failed := stats.failed + 1 }, ⟨[], []⟩) := by
  unfold send_email_for_account send_body
  simp only [hacct, hval]

/-- Fixture environment resolving the fixture account with healthy
collaborators. -/
def envAcct : DispatchEnv :=
  { lookup := fun _ => .ok (some acctMale)
    checkSent := fun _ _ => .ok false
    templateExists := fun _ => true
    cvExists := fun _ => true
    smtpSend := fun _ => .ok ()
    recordOk := true }

/-- Witness for `validation_routed_to_catch_all` at a concrete environment
and invalid event. -/
theorem validation_routed_to_catch_all_witness :
    send_email_for_account envAcct {} 1 badEventData =
      (false, { ({} : EmailLogStats) with failed := 1 }, ⟨[], []⟩) :=
  validation_routed_to_catch_all envAcct {} 1 badEventData acctMale rfl rfl

theorem pairExists_iff_countPair_pos (table : List SentRow) (target sender : String) :
    pairExists table target sender = true ↔ 0 < countPair table target sender := by
  unfold pairExists countPair
  rw [List.any_eq_true, ← List.countP_eq_length_filter, List.countP_pos_iff]

theorem countPair_append_self (table : List SentRow) (target sender : String) (now : Nat) :
    countPair (table ++ [SentRow.mk target sender now]) target sender =
      countPair table target sender + 1 := by
  unfold countPair
  rw [List.filter_append, List.length_append]
  simp

theorem record_sent_single (table : List SentRow) (target sender : String) (now : Nat) :
    record_sent_batch table now [(target, sender)] =
      ((insertIgnore table target sender now).1,
        if (insertIgnore table target sender now).2 then 1 else 0) := by
  unfold record_sent_batch
  simp [List.foldl]

/-- C2: recording the same `(target, sender)` pair a second time leaves
exactly one stored row for the pair and the second call reports zero
newly-inserted rows, provided the store satisfies the uniqueness invariant
enforced by its constraint (at most one row per pair). -/
theorem record_sent_idempotent (table : List SentRow) (target sender : String)
    (now1 now2 : Nat) (hinv : countPair table target sender ≤ 1) :
    countPair
        (record_sent_batch (record_sent_batch table now1 [(target, sender)]).1 now2
          [(target, sender)]).1 target sender = 1 ∧
    (record_sent_batch (record_sent_batch table now1 [(target, sender)]).1 now2
        [(target, sender)]).2 = 0 := by
  have hfst1 : (record_sent_batch table now1 [(target, sender)]).1 =
      (insertIgnore table target sender now1).1 := by
    rw [record_sent_single]
  by_cases h : pairExists table target sender = true
  · have h1 : insertIgnore table target sender now1 = (table, false) := by
      unfold insertIgnore
      rw [if_pos h]
    rw [hfst1, h1, record_sent_single]
    have h2 : insertIgnore table target sender now2 = (table, false) := by
      unfold insertIgnore
      rw [if_pos h]
    rw [h2]
    have hpos : 0 < countPair table target sender :=
      (pairExists_iff_countPair_pos table target sender).mp h
    exact ⟨Nat.le_antisymm hinv hpos, rfl⟩
  · have h1 : insertIgnore table target sender now1 =
        (table ++ [SentRow.mk target sender now1], true) := by
      unfold insertIgnore
      rw [if_neg h]
    rw [hfst1, h1, record_sent_single]
    have hzero : countPair table target sender = 0 := by
      cases hc : countPair table target sender
      · rfl
      · exact absurd ((pairExists_iff_countPair_pos table target sender).mpr
          (by rw [hc]; exact Nat.succ_pos _)) h
    have hmem : pairExists (table ++ [SentRow.mk target sender now1]) target sender = true := by
      rw [pairExists_iff_countPair_pos, countPair_append_self]
      exact Nat.succ_pos _
    have h2 : insertIgnore (table ++ [SentRow.mk target sender now1]) target sender now2 =
        (table ++ [SentRow.mk target sender now1], false) := by
      unfold insertIgnore
      rw [if_pos hmem]
    rw [h2, countPair_append_self, hzero]
    exact ⟨rfl, rfl⟩

/-- Witness for `record_sent_idempotent` starting from the empty store. -/
theorem record_sent_idempotent_witness :
    countPair
        (record_sent_batch (record_sent_batch [] 5 [("hr@x.com", "sender@gmail.com")]).1 7
          [("hr@x.com", "sender@gmail.com")]).1 "hr@x.com" "sender@gmail.com" = 1 ∧
    (record_sent_batch (record_sent_batch [] 5 [("hr@x.com", "sender@gmail.com")]).1 7
        [("hr@x.com", "sender@gmail.com")]).2 = 0 :=
  record_sent_idempotent [] "hr@x.com" "sender@gmail.com" 5 7 (by decide)

theorem find_map_set (m : List (String × Bool)) (k : String) (v : Bool)
    (h : m.any (fun p => p.1 == k) = true) :
    ((m.map fun p => if p.1 == k then (k, v) else p).find? (fun p => p.1 == k))
      = some (k, v) := by
  induction m with
  | nil => simp at h
  | cons a m ih =>
    simp only [List.map_cons]
    by_cases ha : (a.1 == k) = true
    · rw [if_pos ha]
      exact List.find?_cons_of_pos _ (by simp)
    · rw [if_neg ha]
      rw [List.find?_cons_of_neg _ (by simpa using ha)]
      apply ih
      simp only [List.any_cons, Bool.or_eq_true] at h
      rcases h with h | h
      · exact absurd h ha
      · exact h

theorem find_append_last (m : List (String × Bool)) (k : String) (v : Bool)
    (h : m.any (fun p => p.1 == k) = false) :
    ((m ++ [(k, v)]).find? (fun p => p.1 == k)) = some (k, v) := by
  induction m with
  | nil =>
    simp only [List.nil_append]
    exact List.find?_cons_of_pos _ (by simp)
  | cons a m ih =>
    rw [List.cons_append]
    simp only [List.any_cons, Bool.or_eq_false_iff] at h
    rw [List.find?_cons_of_neg _ (by simp [h.1])]
    exact ih (h.2)

theorem dictGet_dictSet_self (m : List (String × Bool)) (k : String) (v : Bool) :
    dictGet (dictSet m k v) k = some v := by
  unfold dictGet dictSet
  split
  · rename_i h
    rw [find_map_set m k v h]
    rfl
  · rename_i h
    rw [find_append_last m k v (by rw [Bool.not_eq_true] at h; exact h)]
    rfl

theorem find_map_set_ne (m : List (String × Bool)) (k k' : String) (v : Bool)
    (hne : k' ≠ k) :
    ((m.map fun p => if p.1 == k then (k, v) else p).find? (fun p => p.1 == k'))
      = m.find? (fun p => p.1 == k') := by
  induction m with
  | nil => rfl
  | cons a m ih =>
    simp only [List.map_cons]
    by_cases ha : (a.1 == k) = true
    · rw [if_pos ha]
      have h1 : ((k, v).1 == k') = false := by
        simp only [beq_eq_false_iff_ne]
        exact fun hh => hne hh.symm
      have h2 : (a.1 == k') = false := by
        rw [eq_of_beq ha]
        exact h1
      rw [List.find?_cons_of_neg _ (by simp [h1]), List.find?_cons_of_neg _ (by simp [h2]), ih]
    · rw [if_neg ha]
      cases hak : (a.1 == k')
      · rw [List.find?_cons_of_neg _ (by simp [hak]), List.find?_cons_of_neg _ (by simp [hak]),
          ih]
      · rw [List.find?_cons_of_pos (p := fun q : String × Bool => q.1 == k') _ hak,
          List.find?_cons_of_pos (p := fun q : String × Bool => q.1 == k') _ hak]

theorem find_append_ne (m : List (String × Bool)) (k k' : String) (v : Bool)
    (hne : k' ≠ k) :
    ((m ++ [(k, v)]).find? (fun p => p.1 == k')) = m.find? (fun p => p.1 == k') := by
  induction m with
  | nil =>
    simp only [List.nil_append]
    rw [List.find?_cons_of_neg _ (by simp; exact fun hh => hne hh.symm)]
  | cons a m ih =>
    rw [List.cons_append]
    cases hak : (a.1 == k')
    · rw [List.find?_cons_of_neg _ (by simp [hak]), List.find?_cons_of_neg _ (by simp [hak]),
        ih]
    · rw [List.find?_cons_of_pos (p := fun q : String × Bool => q.1 == k') _ hak,
        List.find?_cons_of_pos (p := fun q : String × Bool => q.1 == k') _ hak]

theorem dictGet_dictSet_ne (m : List (String × Bool)) (k k' : String) (v : Bool)
    (hne : k' ≠ k) : dictGet (dictSet m k v) k' = dictGet m k' := by
  unfold dictGet dictSet
  split
  · rw [find_map_set_ne m k k' v hne]
  · rw [find_append_ne m k k' v hne]

theorem processLoop_notmem (dispatch : CompleteAccountInfo → Except Unit Bool)
    (accounts : List CompleteAccountInfo) (results : List (String × Bool)) (k : String)
    (h : ∀ acc ∈ accounts, acc.account.email ≠ k) :
    dictGet (processLoop dispatch accounts results) k = dictGet results k := by
  induction accounts generalizing results with
  | nil => rfl
  | cons a rest ih =>
    simp only [processLoop]
    rw [ih _ (fun acc hm => h acc (List.mem_cons_of_mem _ hm)),
      dictGet_dictSet_ne _ _ _ _ (h a (List.mem_cons_self _ _)).symm]

theorem processLoop_isSome_mono (dispatch : CompleteAccountInfo → Except Unit Bool)
    (accounts : List CompleteAccountInfo) (results : List (String × Bool)) (k : String)
    (h : (dictGet results k).isSome = true) :
    (dictGet (processLoop dispatch accounts results) k).isSome = true := by
  induction accounts generalizing results with
  | nil => exact h
  | cons a rest ih =>
    simp only [processLoop]
    apply ih
    by_cases hk : k = a.account.email
    · subst hk
      rw [dictGet_dictSet_self]
      rfl
    · rw [dictGet_dictSet_ne _ _ _ _ hk]
      exact h

theorem processLoop_complete (dispatch : CompleteAccountInfo → Except Unit Bool)
    (accounts : List CompleteAccountInfo) (results : List (String × Bool))
    (acc : CompleteAccountInfo) (h : acc ∈ accounts) :
    (dictGet (processLoop dispatch accounts results) acc.account.email).isSome = true := by
  induction accounts generalizing results with
  | nil => cases h
  | cons a rest ih =>
    simp only [processLoop]
    rcases List.mem_cons.mp h with rfl | hm
    · apply processLoop_isSome_mono
      rw [dictGet_dictSet_self]
      rfl
    · exact ih _ hm

theorem processLoop_value (dispatch : CompleteAccountInfo → Except Unit Bool)
    (accounts : List CompleteAccountInfo) (results : List (String × Bool))
    (acc : CompleteAccountInfo) (h : acc ∈ accounts)
    (hnd : (accounts.map fun a => a.account.email).Nodup) :
    dictGet (processLoop dispatch accounts results) acc.account.email =
      some (toOutcome (dispatch acc)) := by
  induction accounts generalizing results with
  | nil => cases h
  | cons a rest ih =>
    simp only [processLoop]
    rw [List.map_cons, List.nodup_cons] at hnd
    rcases List.mem_cons.mp h with rfl | hm
    · rw [processLoop_notmem dispatch rest _ _
        (fun acc2 hm2 heq => hnd.1 (by rw [← heq]; exact List.mem_map_of_mem _ hm2))]
      rw [dictGet_dictSet_self]
    · exact ih _ hm hnd.2

/-- C5: batch isolation and completeness.  `process_job_application` produces
an outcome entry for every identity of the snapshot; a dispatch that raises
is caught and recorded as `False` for that identity (and, the loop being
total, never prevents the remaining identities from being dispatched); the
complete map is produced whatever the outcomes — in particular when every
dispatch failed.  The per-entry characterisation assumes the snapshot's
sender addresses are pairwise distinct (they key the Python dict). -/
theorem batch_isolation_and_completeness
    (dispatch : CompleteAccountInfo → Except Unit Bool)
    (accounts : List CompleteAccountInfo) (stats : EmailLogStats) :
    (∀ acc ∈ accounts,
      (dictGet (process_job_application dispatch (.ok accounts) stats).1
        acc.account.email).isSome = true) ∧
    ((accounts.map fun a => a.account.email).Nodup →
      ∀ acc ∈ accounts,
        dictGet (process_job_application dispatch (.ok accounts) stats).1
            acc.account.email = some (toOutcome (dispatch acc))) ∧
    (process_job_application dispatch (.ok accounts) stats).2 =
      { stats with processed := stats.processed + 1 } := by
  refine ⟨?_, ?_, rfl⟩
  · intro acc h
    exact processLoop_complete dispatch accounts [] acc h
  · intro hnd acc h
    exact processLoop_value dispatch accounts [] acc h hnd

/-- Fixture: a second active identity. -/
def acctB : CompleteAccountInfo :=
  { account := { id := 2, email := "b@gmail.com", app_password := "pw", is_active := true }
    profile := { account_id := 2, name := "Bea", username := "bea", gender := "female",
                 phone := "0801" }
    data := { account_id := 2, keywords := [], regex_patterns := [] } }

/-- Fixture: a third active identity. -/
def acctC : CompleteAccountInfo :=
  { account := { id := 3, email := "c@gmail.com", app_password := "pw", is_active := true }
    profile := { account_id := 3, name := "Cee", username := "cee", gender := "male",
                 phone := "0802" }
    data := { account_id := 3, keywords := [], regex_patterns := [] } }

/-- Fixture dispatch oracle: the second identity's dispatch raises (transport
failure), the others succeed. -/
def dispatch3 : CompleteAccountInfo → Except Unit Bool :=
  fun acc => if acc.account.id == 2 then .error () else .ok true

/-- Witness for `batch_isolation_and_completeness`: in a batch of three
identities where the second one's dispatch raises, the outcome map holds
`false` exactly for it and `true` for the other two. -/
theorem batch_isolation_and_completeness_witness :
    dictGet (process_job_application dispatch3 (.ok [acctMale, acctB, acctC]) {}).1
        "b@gmail.com" = some false ∧
    dictGet (process_job_application dispatch3 (.ok [acctMale, acctB, acctC]) {}).1
        "sender@gmail.com" = some true ∧
    dictGet (process_job_application dispatch3 (.ok [acctMale, acctB, acctC]) {}).1
        "c@gmail.com" = some true :=
  ⟨(batch_isolation_and_completeness dispatch3 [acctMale, acctB, acctC] {}).2.1 (by decide)
      acctB (List.mem_cons_of_mem _ (List.mem_cons_self _ _)),
    (batch_isolation_and_completeness dispatch3 [acctMale, acctB, acctC] {}).2.1 (by decide)
      acctMale (List.mem_cons_self _ _),
    (batch_isolation_and_completeness dispatch3 [acctMale, acctB, acctC] {}).2.1 (by decide)
      acctC (List.mem_cons_of_mem _ (List.mem_cons_of_mem _ (List.mem_cons_self _ _)))⟩

/-- C7: the message handler invokes the Batch Coordinator exactly when the
payload's type is "job_vacancy", `extracted_data` is present,
`is_job_vacancy` is true and `email` is non-empty; in particular every event
with `is_job_vacancy = false` is rejected early. -/
theorem handler_gate_iff (payload : Payload) :
    handle_payload payload = true ↔
      payload.type = some "job_vacancy" ∧
      ∃ ed, payload.extracted_data = some ed ∧ ed.is_job_vacancy = true ∧ ed.email ≠ [] := by
  obtain ⟨ty, exd⟩ := payload
  unfold handle_payload process_email_invokes
  cases exd with
  | none =>
    by_cases hty : ty = some "job_vacancy" <;>
      simp [hty]
  | some ed =>
    by_cases hty : ty = some "job_vacancy"
    · subst hty
      simp only [beq_self_eq_true, Bool.not_true, Bool.false_eq_true, if_false]
      cases hjv : ed.is_job_vacancy <;>
        cases he : ed.email <;>
          simp_all [List.isEmpty_iff]
    · have : (ty == some "job_vacancy") = false := by
        simp [beq_eq_false_iff_ne, hty]
      simp [this, hty]

/-- C6 counterexample: the dispatch path's subject transform leaves the
explicit subject `"Lowongan_Nama_Backend"` untouched for display name
`"John"` — it does not produce `"Lowongan_John_Backend"`, because
`clean_subject` substitutes `{{word}}` placeholders, never the bare word
"nama". -/
theorem subject_transform_counterexample :
    prepare_subject
        { email := .ofList [.str "hr@x.com"], position := some "Backend"
          subject_email := some "Lowongan_Nama_Backend", gender_required := none }
        "Backend" "John" = .ok "Lowongan_Nama_Backend" ∧
    ("Lowongan_Nama_Backend" : String) ≠ "Lowongan_John_Backend" := by
  constructor
  · rfl
  · decide

/-- C6 amended: the explicit-subject transform substitutes only `{{word}}`
placeholder tokens (a known key is replaced by its value, an unknown key is
removed) and then normalizes separators; the bare word "Nama" outside
braces is never replaced, whatever the display name or position, so
`"Lowongan_Nama_Backend"` passes through unchanged while
`"Lowongan_{{name}}_Backend"` becomes `"Lowongan_John_Backend"`. -/
theorem subject_transform_amended (name position : String) :
    prepare_subject
        { email := .ofList [.str "hr@x.com"], position := some position
          subject_email := some "Lowongan_Nama_Backend", gender_required := none }
        position name = .ok "Lowongan_Nama_Backend" ∧
    clean_subject "Lowongan_{{name}}_Backend" [("name", "John")] =
      "Lowongan_John_Backend" := by
  constructor
  · rfl
  · rfl

/-- Fixture: a fully started `AutoEmailer` (stats task, subscriber with
running task and open pubsub, not yet stopped). -/
def runningState : EmailerState :=
  { stopped := false, hasStatsTask := true, hasSubscriber := true
    subTaskRunning := true, subHasPubsub := true }

/-- C8 counterexample: on a fully started instance, `stop` closes the
event-bus (Redis) connection before the durable-store (database) pool — the
opposite of the claimed "durable-store pool and then the event-bus
connection" order for step (5). -/
theorem shutdown_order_counterexample :
    (autoemailer_stop runningState).2 =
      [.markStopped, .cancelStatsTask, .awaitStatsTask, .setShutdownEvent,
        .cancelSubscriberTask, .awaitSubscriberTask, .unsubscribe, .closePubsub,
        .closeRedis, .closeDb] ∧
    ¬ (List.indexOf StopAction.closeDb (autoemailer_stop runningState).2 <
        List.indexOf StopAction.closeRedis (autoemailer_stop runningState).2) := by
  decide

/-- C8 amended: from any non-stopped state, `stop` performs, in this order:
(1) mark the instance stopped, (2) cancel and await the stats task,
(3) set the shutdown signal, (4) stop the subscriber (cancel its task,
await it, unsubscribe, close the pubsub), (5) close the event-bus
connection and then the durable-store pool; and a second invocation of
`stop` is a no-op. -/
theorem shutdown_sequence_order (st : EmailerState) (h : st.stopped = false) :
    (List.indexOf StopAction.markStopped (autoemailer_stop st).2 <
        List.indexOf StopAction.setShutdownEvent (autoemailer_stop st).2 ∧
      (st.hasStatsTask = true →
        List.indexOf StopAction.markStopped (autoemailer_stop st).2 <
            List.indexOf StopAction.cancelStatsTask (autoemailer_stop st).2 ∧
          List.indexOf StopAction.cancelStatsTask (autoemailer_stop st).2 <
            List.indexOf StopAction.awaitStatsTask (autoemailer_stop st).2 ∧
          List.indexOf StopAction.awaitStatsTask (autoemailer_stop st).2 <
            List.indexOf StopAction.setShutdownEvent (autoemailer_stop st).2) ∧
      (st.hasSubscriber = true → st.subTaskRunning = true →
        List.indexOf StopAction.setShutdownEvent (autoemailer_stop st).2 <
            List.indexOf StopAction.cancelSubscriberTask (autoemailer_stop st).2 ∧
          List.indexOf StopAction.cancelSubscriberTask (autoemailer_stop st).2 <
            List.indexOf StopAction.awaitSubscriberTask (autoemailer_stop st).2 ∧
          List.indexOf StopAction.awaitSubscriberTask (autoemailer_stop st).2 <
            List.indexOf StopAction.closeRedis (autoemailer_stop st).2) ∧
      (st.hasSubscriber = true → st.subHasPubsub = true →
        List.indexOf StopAction.setShutdownEvent (autoemailer_stop st).2 <
            List.indexOf StopAction.unsubscribe (autoemailer_stop st).2 ∧
          List.indexOf StopAction.unsubscribe (autoemailer_stop st).2 <
            List.indexOf StopAction.closePubsub (autoemailer_stop st).2 ∧
          List.indexOf StopAction.closePubsub (autoemailer_stop st).2 <
            List.indexOf StopAction.closeRedis (autoemailer_stop st).2) ∧
      List.indexOf StopAction.setShutdownEvent (autoemailer_stop st).2 <
        List.indexOf StopAction.closeRedis (autoemailer_stop st).2 ∧
      List.indexOf StopAction.closeRedis (autoemailer_stop st).2 <
        List.indexOf StopAction.closeDb (autoemailer_stop st).2) ∧
    autoemailer_stop (autoemailer_stop st).1 = ((autoemailer_stop st).1, []) := by
  obtain ⟨s0, s1, s2, s3, s4⟩ := st
  cases s0
  · cases s1 <;> cases s2 <;> cases s3 <;> cases s4 <;> exact (by decide)
  · exact absurd h (by simp)

/-- Witness for `shutdown_sequence_order` at the fully started state. -/
theorem shutdown_sequence_order_witness :
    List.indexOf StopAction.closeRedis (autoemailer_stop runningState).2 <
        List.indexOf StopAction.closeDb (autoemailer_stop runningState).2 ∧
    autoemailer_stop (autoemailer_stop runningState).1 =
      ((autoemailer_stop runningState).1, []) :=
  ⟨(shutdown_sequence_order runningState rfl).1.2.2.2.2.2,
    (shutdown_sequence_order runningState rfl).2⟩
